import Mathlib

/-!
Verification of the AurumIQ trading-journal frontend's PnL and analytics
logic against its specification.

Prices are modelled as rationals (the code computes with JS numbers on
decimal inputs; every property checked here is an exact arithmetic
identity), quantities as integers, and fallible lookups/fields as
`Option`.  A JavaScript value that may be `null`/`undefined` becomes an
`Option`; JS truthiness of a numeric field (`null`, `undefined` and `0`
are falsy) is modelled by `truthyNum`.
-/

namespace AurumIQ

/-- A quote mapping, `ticker ↦ last-traded-price`: the shape of
`livePrices.prices` in `TradeDetails.jsx`, where each entry's `ltp` field
holds the price. -/
def Quotes := List (String × ℚ)

/-- Lookup of `prices[ticker]` (first matching entry), returning its
`ltp`. -/
def lookupQuote (quotes : Quotes) (ticker : String) : Option ℚ :=
  (quotes.find? (fun entry => entry.1 == ticker)).map (·.2)

/-- A trade leg as served by the API and consumed by
`TradeDetails.jsx` (README: `TradeLeg` model).  `exit_date` and
`exit_price` are nullable. -/
structure TradeLeg where
  name : String := ""
  ticker : String
  is_open : Bool
  entry_date : String := ""
  exit_date : Option String := none
  entry_price : ℚ
  exit_price : Option ℚ
  quantity : ℤ

/-- JS truthiness of a nullable numeric field: `null`/`undefined` and `0`
are falsy, every other number is truthy. -/
def truthyNum : Option ℚ → Bool
  | none => false
  | some v => v != 0

/-- `calculateLegPnL` from `TradeDetails.jsx` (lines 205–217):
if the leg is not open and `leg.exit_price` is truthy, return
`(exit_price − entry_price) * quantity`; else if the leg is open and a
live price for its ticker is available, return
`(currentPrice − entry_price) * quantity`; else return `null`. -/
def calculateLegPnL (livePrices : Option Quotes) (leg : TradeLeg) : Option ℚ :=
  if !leg.is_open && truthyNum leg.exit_price then
    some ((leg.exit_price.getD 0 - leg.entry_price) * (leg.quantity : ℚ))
  else
    match leg.is_open, livePrices with
    | true, some prices =>
      match lookupQuote prices leg.ticker with
      | some currentPrice => some ((currentPrice - leg.entry_price) * (leg.quantity : ℚ))
      | none => none
    | _, _ => none

/-- `totalPnL` from `TradeDetails.jsx` (lines 219–224): reduce over the
trade's legs, adding each leg's PnL when it is not `null` and leaving the
accumulator unchanged when it is. -/
def totalPnL (livePrices : Option Quotes) (legs : List TradeLeg) : ℚ :=
  legs.foldl (fun sum leg =>
    match calculateLegPnL livePrices leg with
    | some legPnL => sum + legPnL
    | none => sum) 0

example : calculateLegPnL none
    { ticker := "GOLD", is_open := false, entry_price := 100,
      exit_price := some 120, quantity := 10 } = some 200 := by
  simp [calculateLegPnL, truthyNum]
  norm_num

example : calculateLegPnL (some [("GOLD", 110)])
    { ticker := "GOLD", is_open := true, entry_price := 100,
      exit_price := none, quantity := -5 } = some (-50) := by
  simp [calculateLegPnL, truthyNum, lookupQuote, List.find?]
  norm_num

example : calculateLegPnL (some [("GOLD", 120)])
    { ticker := "GOLD", is_open := false, entry_price := 100,
      exit_price := some 0, quantity := 10 } = none := by
  simp [calculateLegPnL, truthyNum]

/-- The reducer of `totalPnL`, started from any accumulator, adds exactly
the defined leg PnLs. -/
lemma foldl_pnl_eq (lp : Option Quotes) (legs : List TradeLeg) (acc : ℚ) :
    legs.foldl (fun sum leg =>
      match calculateLegPnL lp leg with
      | some legPnL => sum + legPnL
      | none => sum) acc
      = acc + (legs.filterMap (calculateLegPnL lp)).sum := by
  induction legs generalizing acc with
  | nil => simp
  | cons leg rest ih =>
    cases h : calculateLegPnL lp leg with
    | none => simp [List.foldl_cons, h, ih]
    | some v =>
      simp [List.foldl_cons, h, ih]
      ring

/-- `totalPnL` is the sum of the defined leg PnLs. -/
lemma totalPnL_eq_sum (lp : Option Quotes) (legs : List TradeLeg) :
    totalPnL lp legs = (legs.filterMap (calculateLegPnL lp)).sum := by
  simpa using foldl_pnl_eq lp legs 0

/-- A leg whose PnL is `null` contributes nothing to `totalPnL`. -/
lemma totalPnL_skip (lp : Option Quotes) (leg : TradeLeg) (legs : List TradeLeg)
    (h : calculateLegPnL lp leg = none) :
    totalPnL lp (leg :: legs) = totalPnL lp legs := by
  simp [totalPnL_eq_sum, List.filterMap_cons, h]

/-- C1 (counterexample): a closed leg whose `exit_price` is present but
equal to `0` does not get the realized-PnL formula: `calculateLegPnL`
tests `leg.exit_price` for truthiness, `0` is falsy, and the result is
`null` rather than `(0 − 100) × 10 = −1000`. -/
theorem closed_leg_zero_exit_cex :
    calculateLegPnL (some [("GLDZ", 120)])
      { ticker := "GLDZ", is_open := false, entry_price := 100,
        exit_price := some 0, quantity := 10 }
      ≠ some (((0 : ℚ) - 100) * 10) := by
  simp [calculateLegPnL, truthyNum]

/-- C1 (amended): for every closed leg (`is_open = false`) whose
`exit_price` is present and nonzero, the leg PnL is
`(exit_price − entry_price) × quantity`, and the result is independent of
the supplied quote mapping (changing or removing the quotes does not
change it). -/
theorem closed_leg_pnl_realized (lp lp' : Option Quotes) (leg : TradeLeg) (p : ℚ)
    (hopen : leg.is_open = false) (hexit : leg.exit_price = some p) (hp : p ≠ 0) :
    calculateLegPnL lp leg = some ((p - leg.entry_price) * (leg.quantity : ℚ)) ∧
    calculateLegPnL lp leg = calculateLegPnL lp' leg := by
  constructor
  · simp [calculateLegPnL, hopen, hexit, truthyNum, hp]
  · simp [calculateLegPnL, hopen, hexit, truthyNum, hp]

/-- C1 (witness): the amended statement at a concrete closed leg
(entry 100, exit 120, quantity 10) under a quote mapping that the result
must ignore. -/
theorem closed_leg_pnl_realized_witness :
    calculateLegPnL (some [("SLV", 50)])
        { ticker := "SLV", is_open := false, entry_price := 100,
          exit_price := some 120, quantity := 10 }
      = some (((120 : ℚ) - 100) * ((10 : ℤ) : ℚ)) ∧
    calculateLegPnL (some [("SLV", 50)])
        { ticker := "SLV", is_open := false, entry_price := 100,
          exit_price := some 120, quantity := 10 }
      = calculateLegPnL none
        { ticker := "SLV", is_open := false, entry_price := 100,
          exit_price := some 120, quantity := 10 } :=
  closed_leg_pnl_realized (some [("SLV", 50)]) none
    { ticker := "SLV", is_open := false, entry_price := 100,
      exit_price := some 120, quantity := 10 } 120 rfl rfl (by norm_num)

/-- C2: for every open leg whose ticker is present in the supplied quote
mapping, the leg PnL is `(quote_price − entry_price) × quantity`, the
same uniform formula whatever the sign of `quantity`. -/
theorem open_leg_pnl_unrealized (quotes : Quotes) (leg : TradeLeg) (q : ℚ)
    (hopen : leg.is_open = true) (hq : lookupQuote quotes leg.ticker = some q) :
    calculateLegPnL (some quotes) leg
      = some ((q - leg.entry_price) * (leg.quantity : ℚ)) := by
  simp [calculateLegPnL, hopen, hq]

/-- C2 (witness): a short position (quantity −5) entered at 100 with the
quote at 90 comes out as `(90 − 100) × (−5) = +50`. -/
theorem open_leg_pnl_unrealized_witness :
    calculateLegPnL (some [("NIFTY", 90)])
        { ticker := "NIFTY", is_open := true, entry_price := 100,
          exit_price := none, quantity := -5 }
      = some (((90 : ℚ) - 100) * ((-5 : ℤ) : ℚ)) ∧
    (((90 : ℚ) - 100) * ((-5 : ℤ) : ℚ)) = 50 :=
  ⟨open_leg_pnl_unrealized [("NIFTY", 90)]
      { ticker := "NIFTY", is_open := true, entry_price := 100,
        exit_price := none, quantity := -5 } 90 rfl (by simp [lookupQuote]),
   by norm_num⟩

/-- C3: for every open leg whose ticker has no entry in the supplied
quote mapping, `calculateLegPnL` returns `null` (never the number zero),
and `totalPnL` excludes such a leg from the sum rather than treating its
contribution as 0. -/
theorem open_leg_no_quote_pnl_none (quotes : Quotes) (leg : TradeLeg)
    (hopen : leg.is_open = true) (hq : lookupQuote quotes leg.ticker = none) :
    calculateLegPnL (some quotes) leg = none ∧
    ∀ legs : List TradeLeg,
      totalPnL (some quotes) (leg :: legs) = totalPnL (some quotes) legs := by
  have hnone : calculateLegPnL (some quotes) leg = none := by
    simp [calculateLegPnL, hopen, hq]
  exact ⟨hnone, fun legs => totalPnL_skip (some quotes) leg legs hnone⟩

/-- C3 (witness): an open leg on a ticker absent from the quote mapping
has `null` PnL and adds nothing to an existing trade's total. -/
theorem open_leg_no_quote_pnl_none_witness :
    calculateLegPnL (some [("GOLD", 120)])
        { ticker := "COPPER", is_open := true, entry_price := 40,
          exit_price := none, quantity := 7 } = none ∧
    ∀ legs : List TradeLeg,
      totalPnL (some [("GOLD", 120)])
          ({ ticker := "COPPER", is_open := true, entry_price := 40,
             exit_price := none, quantity := 7 } :: legs)
        = totalPnL (some [("GOLD", 120)]) legs :=
  open_leg_no_quote_pnl_none [("GOLD", 120)]
    { ticker := "COPPER", is_open := true, entry_price := 40,
      exit_price := none, quantity := 7 } rfl (by simp [lookupQuote])

/-- The two legs of the trade in C4's concrete scenario: one closed leg
(entry 100, exit 120, quantity 10) and one open leg whose ticker has no
quote. -/
def tradeC4legs : List TradeLeg :=
  [{ ticker := "GOLD", is_open := false, entry_price := 100,
     exit_price := some 120, quantity := 10 },
   { ticker := "SILVER", is_open := true, entry_price := 50,
     exit_price := none, quantity := 3 }]

/-- C4: the trade-level PnL is the sum over exactly the legs whose PnL
is defined (undefined legs are skipped, not zeroed), and at the claim's
concrete trade — one closed leg (entry 100, exit 120, quantity 10) plus
one open leg with no quote — the open leg's PnL is `null` and omitted,
the total coming out 200.  That number is the trade view's whole
aggregate output: `totalPnL` is a bare rational, so no `is_partial`
indicator accompanies it to expose the omission, where spec §4.2
requires one. -/
theorem totalPnL_no_partial_flag :
    (∀ (lp : Option Quotes) (legs : List TradeLeg),
        totalPnL lp legs = (legs.filterMap (calculateLegPnL lp)).sum) ∧
    calculateLegPnL (some [])
        { ticker := "SILVER", is_open := true, entry_price := 50,
          exit_price := none, quantity := 3 } = none ∧
    totalPnL (some []) tradeC4legs = 200 := by
  refine ⟨totalPnL_eq_sum, ?_, ?_⟩
  · simp [calculateLegPnL, lookupQuote]
  · simp [totalPnL_eq_sum, tradeC4legs, calculateLegPnL, truthyNum, lookupQuote]
    norm_num

/-- C10: a closed leg whose `exit_price` equals 0 — a value the data
model permits — gets `null` from `calculateLegPnL` (the closed branch
tests `exit_price` for truthiness and 0 is falsy) and is silently
excluded from the trade's total PnL. -/
theorem closed_leg_zero_exit_excluded (lp : Option Quotes) (leg : TradeLeg)
    (hopen : leg.is_open = false) (hexit : leg.exit_price = some 0) :
    calculateLegPnL lp leg = none ∧
    ∀ legs : List TradeLeg, totalPnL lp (leg :: legs) = totalPnL lp legs := by
  have hnone : calculateLegPnL lp leg = none := by
    simp [calculateLegPnL, hopen, hexit, truthyNum]
  exact ⟨hnone, fun legs => totalPnL_skip lp leg legs hnone⟩

/-- C10 (witness): a concrete closed leg with `exit_price = 0` is dropped
from the total even though `(0 − entry) × quantity` would be −350. -/
theorem closed_leg_zero_exit_excluded_witness :
    calculateLegPnL (some [("ZINC", 60)])
        { ticker := "ZINC", is_open := false, entry_price := 70,
          exit_price := some 0, quantity := 5 } = none ∧
    ∀ legs : List TradeLeg,
      totalPnL (some [("ZINC", 60)])
          ({ ticker := "ZINC", is_open := false, entry_price := 70,
             exit_price := some 0, quantity := 5 } :: legs)
        = totalPnL (some [("ZINC", 60)]) legs :=
  closed_leg_zero_exit_excluded (some [("ZINC", 60)])
    { ticker := "ZINC", is_open := false, entry_price := 70,
      exit_price := some 0, quantity := 5 } rfl rfl

/-- Modelled from the spec: the per-leg PnL rule of §4.1 of the
specification, used by the analytics summarizer.  The summarizer itself
runs in the Django backend (`/api/analytics/summary/`), which is not
among the sources here — only its consumer `Analysis.jsx` is — so it is
taken at the spec's words: a closed leg with `exit_price` present
realizes `(exit_price − entry_price) × quantity`; an open leg with a
quote has `(quote − entry_price) × quantity`; otherwise the PnL is
undefined. -/
def specLegPnL (quotes : Quotes) (leg : TradeLeg) : Option ℚ :=
  if leg.is_open then
    (lookupQuote quotes leg.ticker).map fun q =>
      (q - leg.entry_price) * (leg.quantity : ℚ)
  else
    leg.exit_price.map fun xp => (xp - leg.entry_price) * (leg.quantity : ℚ)

/-- A trade's derived open flag: the OR of its legs' `is_open` (spec
§4.2, and `hasOpenLegs` in `TradeDetails.jsx` line 269). -/
def tradeIsOpen (legs : List TradeLeg) : Bool :=
  legs.any (·.is_open)

/-- Modelled from the spec: trade-level PnL of §4.2 — the partial sum of
the trade's defined leg PnLs. -/
def specTradePnL (quotes : Quotes) (legs : List TradeLeg) : ℚ :=
  (legs.filterMap (specLegPnL quotes)).sum

/-- The analytics summary record rendered by `Analysis.jsx`. -/
structure AnalyticsSummary where
  total_open_trades : ℕ
  total_closed_trades : ℕ
  open_trades_pnl : ℚ
  closed_trades_pnl : ℚ
  overall_pnl : ℚ

/-- Modelled from the spec: the backend analytics summarizer of §4.3,
absent from the sources.  Counts trades by the derived open flag, sums
trade-level PnL over the open and the closed trades separately, and sets
`overall_pnl` to the closed-trades figure. -/
def computeAnalyticsSummary (quotes : Quotes) (trades : List (List TradeLeg)) :
    AnalyticsSummary :=
  let openTrades := trades.filter fun t => tradeIsOpen t
  let closedTrades := trades.filter fun t => !tradeIsOpen t
  let closedPnl := (closedTrades.map (specTradePnL quotes)).sum
  { total_open_trades := openTrades.length
    total_closed_trades := closedTrades.length
    open_trades_pnl := (openTrades.map (specTradePnL quotes)).sum
    closed_trades_pnl := closedPnl
    overall_pnl := closedPnl }

/-- A fully closed trade ignores the quote mapping. -/
lemma specTradePnL_closed_quote_indep (q q' : Quotes) (legs : List TradeLeg)
    (h : tradeIsOpen legs = false) :
    specTradePnL q legs = specTradePnL q' legs := by
  unfold specTradePnL
  refine congrArg List.sum (List.filterMap_congr fun leg hmem => ?_)
  have hleg : leg.is_open = false := by
    have hall := List.any_eq_false.mp (by simpa [tradeIsOpen] using h)
    simpa using hall leg hmem
  simp [specLegPnL, hleg]

/-- The open trade of C5's concrete portfolio: one open leg, entered at
100 with quantity 5, quoted at 200 — unrealized +500. -/
def openTradeC5 : List TradeLeg :=
  [{ ticker := "AAPL", is_open := true, entry_price := 100,
     exit_price := none, quantity := 5 }]

/-- The closed trade of C5's concrete portfolio: one closed leg, entered
at 100 and exited at 95 with quantity 10 — realized −50. -/
def closedTradeC5 : List TradeLeg :=
  [{ ticker := "TCS", is_open := false, entry_price := 100,
     exit_price := some 95, quantity := 10 }]

/-- C5: `overall_pnl` equals `closed_trades_pnl`; it is unchanged by
dropping every open trade and by replacing the quote mapping
(quote-independent); and on a portfolio of one open trade with
unrealized +500 and one closed trade with realized −50 it is −50. -/
theorem overall_pnl_closed_only :
    (∀ (quotes quotes' : Quotes) (trades : List (List TradeLeg)),
        (computeAnalyticsSummary quotes trades).overall_pnl
          = (computeAnalyticsSummary quotes trades).closed_trades_pnl ∧
        (computeAnalyticsSummary quotes trades).overall_pnl
          = (computeAnalyticsSummary quotes
              (trades.filter fun t => !tradeIsOpen t)).overall_pnl ∧
        (computeAnalyticsSummary quotes trades).overall_pnl
          = (computeAnalyticsSummary quotes' trades).overall_pnl) ∧
    specTradePnL [("AAPL", 200)] openTradeC5 = 500 ∧
    (computeAnalyticsSummary [("AAPL", 200)] [openTradeC5, closedTradeC5]).overall_pnl
      = -50 := by
  refine ⟨fun quotes quotes' trades => ⟨rfl, ?_, ?_⟩, ?_, ?_⟩
  · simp [computeAnalyticsSummary, List.filter_filter]
  · unfold computeAnalyticsSummary
    refine congrArg List.sum (List.map_congr_left fun t ht => ?_)
    exact specTradePnL_closed_quote_indep quotes quotes' t
      (by simpa using (List.mem_filter.mp ht).2)
  · simp [specTradePnL, specLegPnL, openTradeC5, lookupQuote]
    norm_num
  · simp [computeAnalyticsSummary, specTradePnL, specLegPnL, openTradeC5,
      closedTradeC5, tradeIsOpen, lookupQuote]
    norm_num

/-- A snapshot leg as stored: ticker, reference date, reference price,
signed quantity (spec §3; `SnapshotForm` fields). -/
structure SnapshotLeg where
  ticker : String
  date : String := ""
  price : ℚ
  quantity : ℤ

/-- The movement fields served with each snapshot leg and read by
`SnapshotDetails.jsx`. -/
structure SnapshotComparison where
  current_price : Option ℚ
  points_moved : Option ℚ
  percentage_moved : Option ℚ

/-- Modelled from the spec: the snapshot comparator of §4.4.  The
movement fields (`current_price`, `points_moved`, `percentage_moved`)
arrive on each leg of the snapshot-details response, computed by the
Django backend, which is not among the sources here; only the rendering
in `SnapshotDetails.jsx` is.  Per the spec: `current_price` is the quote
lookup for the leg's ticker; when present, `points_moved =
current_price − reference_price` and `percentage_moved = points_moved /
reference_price × 100` with no runtime guard on the division; when
absent, all three fields are undefined. -/
def computeSnapshotComparison (quotes : Quotes) (leg : SnapshotLeg) :
    SnapshotComparison :=
  match lookupQuote quotes leg.ticker with
  | none => ⟨none, none, none⟩
  | some cp => ⟨some cp, some (cp - leg.price),
      some ((cp - leg.price) / leg.price * 100)⟩

/-- The information a movement cell of `SnapshotDetails.jsx` renders: a
dash, or a sign (color/arrow) with the printed amount. -/
inductive MovementCell
  | dash
  | shown (isPositive : Bool) (amount : ℚ)
deriving DecidableEq

/-- `formatMovement` from `SnapshotDetails.jsx` (lines 186–198), reduced
to the data its rendered string carries: `null`/`undefined` becomes the
dash, any number becomes its sign (`num >= 0`) with `Math.abs(num)` (the
string prints the absolute value behind `+₹`/`-₹`). -/
def formatMovement : Option ℚ → MovementCell
  | none => .dash
  | some v => .shown (decide (0 ≤ v)) |v|

/-- `formatPercentage` from `SnapshotDetails.jsx` (lines 200–207):
`null`/`undefined` becomes the dash, any number becomes its sign with
the signed number printed by `toFixed(2)`. -/
def formatPercentage : Option ℚ → MovementCell
  | none => .dash
  | some v => .shown (decide (0 ≤ v)) v

/-- C6: when the quote for a snapshot leg's ticker is present,
`points_moved = current − reference` and `percentage_moved =
points_moved / reference × 100`; when it is absent, both movement fields
are undefined and the presentation layer renders each as a dash. -/
theorem snapshot_movement (quotes : Quotes) (leg : SnapshotLeg) :
    (∀ q : ℚ, lookupQuote quotes leg.ticker = some q →
      (computeSnapshotComparison quotes leg).points_moved
          = some (q - leg.price) ∧
      (computeSnapshotComparison quotes leg).percentage_moved
          = some ((q - leg.price) / leg.price * 100)) ∧
    (lookupQuote quotes leg.ticker = none →
      (computeSnapshotComparison quotes leg).points_moved = none ∧
      (computeSnapshotComparison quotes leg).percentage_moved = none ∧
      formatMovement (computeSnapshotComparison quotes leg).points_moved
          = .dash ∧
      formatPercentage (computeSnapshotComparison quotes leg).percentage_moved
          = .dash) := by
  constructor
  · intro q hq
    simp [computeSnapshotComparison, hq]
  · intro hq
    simp [computeSnapshotComparison, hq, formatMovement, formatPercentage]

/-- The snapshot leg of C6's concrete scenario: reference price 100. -/
def snapshotLegC6 : SnapshotLeg :=
  { ticker := "IDX", price := 100, quantity := 2 }

/-- C6 (witness): with the quote at 110 against reference 100 the
movement is 10 points and 10%; with the quote missing both fields are
dashes. -/
theorem snapshot_movement_witness :
    (computeSnapshotComparison [("IDX", 110)] snapshotLegC6).points_moved
        = some ((110 : ℚ) - 100) ∧
    (computeSnapshotComparison [("IDX", 110)] snapshotLegC6).percentage_moved
        = some (((110 : ℚ) - 100) / 100 * 100) ∧
    ((110 : ℚ) - 100) = 10 ∧
    (((110 : ℚ) - 100) / 100 * 100) = 10 ∧
    formatMovement (computeSnapshotComparison [] snapshotLegC6).points_moved
        = .dash ∧
    formatPercentage (computeSnapshotComparison [] snapshotLegC6).percentage_moved
        = .dash := by
  have hyes := (snapshot_movement [("IDX", 110)] snapshotLegC6).1 110
    (by simp [lookupQuote, snapshotLegC6])
  have hno := (snapshot_movement [] snapshotLegC6).2
    (by simp [lookupQuote])
  exact ⟨by simpa [snapshotLegC6] using hyes.1,
    by simpa [snapshotLegC6] using hyes.2,
    by norm_num, by norm_num, hno.2.2.1, hno.2.2.2⟩

/-- A leg of the snapshot form, by field content.  Text fields are taken
by their whitespace-trimmed content (the form checks blankness with
`!field.trim()`), and each numeric field by its parsed value, `none`
standing for a blank field — note a field holding `"0"` is a truthy
string parsing to 0, modelled as `some 0`. -/
structure SnapshotLegForm where
  ticker : String
  date : String
  price : Option ℚ
  quantity : Option ℤ

/-- The per-leg checks of `SnapshotForm.validate` (SnapshotForm lines
264–290): a leg records no error iff its ticker and date are nonblank,
its price is a nonblank field parsing to a value `> 0` (the code errors
on `!leg.price || parseFloat(leg.price) <= 0`), and its quantity is a
nonblank field parsing to a nonzero integer (`!leg.quantity ||
parseInt(leg.quantity) === 0`). -/
def snapshotLegValid (leg : SnapshotLegForm) : Bool :=
  (leg.ticker != "") &&
  (leg.date != "") &&
  (match leg.price with | none => false | some p => decide (0 < p)) &&
  (match leg.quantity with | none => false | some n => n != 0)

/-- C7: every snapshot leg that passes validation has a reference price
strictly greater than 0 (in particular nonzero, so the unguarded
division in the percentage formula has a nonzero denominator) and a
nonzero quantity; a leg with reference price 0 is rejected and never
reaches the comparator. -/
theorem snapshot_validation_positive_price (leg : SnapshotLegForm)
    (h : snapshotLegValid leg = true) :
    (∃ p : ℚ, leg.price = some p ∧ 0 < p ∧ p ≠ 0) ∧
    (∃ n : ℤ, leg.quantity = some n ∧ n ≠ 0) := by
  simp only [snapshotLegValid, Bool.and_eq_true] at h
  obtain ⟨⟨⟨-, -⟩, hp⟩, hn⟩ := h
  constructor
  · cases hprice : leg.price with
    | none => rw [hprice] at hp; exact absurd hp (by simp)
    | some p =>
      rw [hprice] at hp
      have hlt : 0 < p := by simpa using hp
      exact ⟨p, rfl, hlt, ne_of_gt hlt⟩
  · cases hq : leg.quantity with
    | none => rw [hq] at hn; exact absurd hn (by simp)
    | some n =>
      rw [hq] at hn
      exact ⟨n, rfl, by simpa using hn⟩

/-- C7 (witness): a concrete valid snapshot-form leg, whose price is
positive and quantity nonzero. -/
theorem snapshot_validation_positive_price_witness :
    (∃ p : ℚ, (some (100 : ℚ)) = some p ∧ 0 < p ∧ p ≠ 0) ∧
    (∃ n : ℤ, (some (2 : ℤ)) = some n ∧ n ≠ 0) :=
  snapshot_validation_positive_price
    { ticker := "NSE:SBIN-EQ", date := "2025-01-27",
      price := some 100, quantity := some 2 }
    (by norm_num [snapshotLegValid]; exact ⟨by decide, by decide⟩)

/-- A leg of the trade form, by field content (`TradeForm.jsx`,
`getEmptyLeg`).  Text fields are taken by their whitespace-trimmed
content (the form checks blankness with `!field.trim()`); `exit_date` is
the raw date string, empty when blank; each numeric field carries its
parsed value, `none` standing for a blank field. -/
structure TradeLegForm where
  name : String
  ticker : String
  is_open : Bool
  entry_date : String
  exit_date : String
  entry_price : Option ℚ
  exit_price : Option ℚ
  quantity : Option ℤ

/-- The per-leg checks of `TradeForm.validate` (lines 124–157): a leg
records no error iff name, ticker and entry date are nonblank, the entry
price parses to a value `> 0`, the quantity parses to a nonzero integer,
and — for a closed leg (`is_open` false) — the exit date is nonblank and
the exit price parses to a value `> 0`. -/
def tradeLegFormValid (leg : TradeLegForm) : Bool :=
  (leg.name != "") &&
  (leg.ticker != "") &&
  (leg.entry_date != "") &&
  (match leg.entry_price with | none => false | some p => decide (0 < p)) &&
  (match leg.quantity with | none => false | some n => n != 0) &&
  (leg.is_open ||
    ((leg.exit_date != "") &&
     (match leg.exit_price with | none => false | some p => decide (0 < p))))

/-- The leg object submitted to the API. -/
structure TradeLegPayload where
  name : String
  ticker : String
  is_open : Bool
  entry_date : String
  exit_date : Option String
  entry_price : ℚ
  exit_price : Option ℚ
  quantity : ℤ

/-- The `legsData` mapping of `TradeForm.handleSubmit` (lines 166–177):
`exit_date` is `null` when the leg is open and otherwise
`leg.exit_date || null`; `exit_price` is `null` when the leg is open and
otherwise the parsed field when nonblank (`leg.exit_price ?
parseFloat(leg.exit_price) : null`).  `getD 0` stands for the JS parse
of a numeric field that `validate` — which runs before this mapping —
has already checked to be nonblank. -/
def buildLegPayload (leg : TradeLegForm) : TradeLegPayload :=
  { name := leg.name
    ticker := leg.ticker
    is_open := leg.is_open
    entry_date := leg.entry_date
    exit_date := if leg.is_open then none
      else if leg.exit_date != "" then some leg.exit_date else none
    entry_price := leg.entry_price.getD 0
    exit_price := if leg.is_open then none else leg.exit_price
    quantity := leg.quantity.getD 0 }

/-- C8: every leg accepted by the trade form satisfies the data-model
invariant — when `is_open` is false the submitted payload carries both
`exit_date` and `exit_price` (validation having rejected the submission
otherwise), and when `is_open` is true both are `null` in the payload. -/
theorem trade_form_exit_invariant (leg : TradeLegForm)
    (h : tradeLegFormValid leg = true) :
    (leg.is_open = false →
      ((buildLegPayload leg).exit_date).isSome = true ∧
      ((buildLegPayload leg).exit_price).isSome = true) ∧
    (leg.is_open = true →
      (buildLegPayload leg).exit_date = none ∧
      (buildLegPayload leg).exit_price = none) := by
  simp only [tradeLegFormValid, Bool.and_eq_true, Bool.or_eq_true] at h
  obtain ⟨⟨⟨⟨⟨-, -⟩, -⟩, -⟩, -⟩, hclosed⟩ := h
  constructor
  · intro hopen
    rw [hopen] at hclosed
    simp only [Bool.false_eq_true, false_or, Bool.and_eq_true] at hclosed
    obtain ⟨hdate, hprice⟩ := hclosed
    refine ⟨by simp [buildLegPayload, hopen, hdate], ?_⟩
    cases hx : leg.exit_price with
    | none => rw [hx] at hprice; exact absurd hprice (by simp)
    | some p => simp [buildLegPayload, hopen, hx]
  · intro hopen
    simp [buildLegPayload, hopen]

/-- C8 (witness): a concrete valid closed leg and a concrete valid open
leg, with the payload's exit fields present for the first and `null` for
the second. -/
theorem trade_form_exit_invariant_witness :
    (((buildLegPayload
        { name := "Gold Short", ticker := "MCX:GOLDM", is_open := false,
          entry_date := "2025-01-01", exit_date := "2025-02-01",
          entry_price := some 100, exit_price := some 95,
          quantity := some (-2) }).exit_date).isSome = true ∧
      ((buildLegPayload
        { name := "Gold Short", ticker := "MCX:GOLDM", is_open := false,
          entry_date := "2025-01-01", exit_date := "2025-02-01",
          entry_price := some 100, exit_price := some 95,
          quantity := some (-2) }).exit_price).isSome = true) ∧
    ((buildLegPayload
        { name := "Silver Long", ticker := "MCX:SILVERM", is_open := true,
          entry_date := "2025-01-01", exit_date := "",
          entry_price := some 80, exit_price := none,
          quantity := some 3 }).exit_date = none ∧
      (buildLegPayload
        { name := "Silver Long", ticker := "MCX:SILVERM", is_open := true,
          entry_date := "2025-01-01", exit_date := "",
          entry_price := some 80, exit_price := none,
          quantity := some 3 }).exit_price = none) :=
  ⟨(trade_form_exit_invariant
      { name := "Gold Short", ticker := "MCX:GOLDM", is_open := false,
        entry_date := "2025-01-01", exit_date := "2025-02-01",
        entry_price := some 100, exit_price := some 95,
        quantity := some (-2) }
      (by norm_num [tradeLegFormValid]; decide)).1 rfl,
   (trade_form_exit_invariant
      { name := "Silver Long", ticker := "MCX:SILVERM", is_open := true,
        entry_date := "2025-01-01", exit_date := "",
        entry_price := some 80, exit_price := none,
        quantity := some 3 }
      (by norm_num [tradeLegFormValid]; decide)).2 rfl⟩

/-- `shouldPoll` of the live-prices effect (`TradeDetails.jsx` line 102):
`trade?.legs?.some(l => l.is_open)` — false while no trade is loaded,
else true iff some leg is open. -/
def shouldPollLivePrices (trade : Option (List TradeLeg)) : Bool :=
  match trade with
  | none => false
  | some legs => legs.any (·.is_open)

/-- The live-prices effect of `TradeDetails.jsx` (lines 100–120), as the
interval it leaves installed: when `shouldPoll` fails the effect returns
at once and installs nothing; otherwise it starts
`setInterval(fetchLivePrices, 15000)` and returns the cleanup that
clears exactly that interval. -/
def livePricesEffect (trade : Option (List TradeLeg)) : Option ℕ :=
  if shouldPollLivePrices trade then some 15000 else none

/-- The interval active after a sequence of effect runs (the effect
depends on `trade`, so each change of the loaded trade reruns it): React
invokes the previous run's cleanup — here `clearInterval` — before the
next run and on unmount, so each run replaces the previous run's
interval. -/
def activeIntervalAfter (renders : List (Option (List TradeLeg))) : Option ℕ :=
  renders.foldl (fun _ trade => livePricesEffect trade) none

/-- C9: after any sequence of renders the only interval left running is
the last run's; a run installs the fixed 15000 ms poll exactly when the
displayed trade has an open leg and installs nothing otherwise — so on a
transition to a trade with no open legs the previous poll loop is
cancelled and no new one is started. -/
theorem live_prices_polling :
    ∀ (renders : List (Option (List TradeLeg)))
      (trade : Option (List TradeLeg)),
      activeIntervalAfter (renders ++ [trade]) = livePricesEffect trade ∧
      (livePricesEffect trade = some 15000 ↔
        shouldPollLivePrices trade = true) ∧
      (livePricesEffect trade = none ↔
        shouldPollLivePrices trade = false) ∧
      (shouldPollLivePrices trade = true ↔
        ∃ legs, trade = some legs ∧ ∃ leg ∈ legs, leg.is_open = true) := by
  intro renders trade
  refine ⟨by simp [activeIntervalAfter, List.foldl_append], ?_, ?_, ?_⟩
  · cases h : shouldPollLivePrices trade <;> simp [livePricesEffect, h]
  · cases h : shouldPollLivePrices trade <;> simp [livePricesEffect, h]
  · cases trade with
    | none => simp [shouldPollLivePrices]
    | some legs => simp [shouldPollLivePrices, List.any_eq_true]

end AurumIQ

